import Mathlib

/-
  Verification of the franka_ros2 hardware layer
  (franka_hardware/src/robot.cpp: class Robot, the real-time control
  bridge, and class FrankaHardwareInterface, the ros2_control hardware
  adapter).

  The C++ code is shallowly embedded: each member function becomes a pure
  Lean function on an explicit state record.  Doubles are modelled by an
  abstract type `Dbl` distinguishing finite values (carried as rationals;
  no arithmetic is ever performed on them in this code, they are only
  copied and compared) from the non-finite values NaN, +inf and -inf,
  exactly the distinction `std::isfinite` makes.  `std::array<double, 7>`
  becomes `Fin 7 → Dbl`.
-/

set_option autoImplicit false
set_option linter.unusedVariables false

namespace FrankaRos2

/-- A C++ `double` as used by this code: either a finite value or one of
the non-finite values rejected by `std::isfinite`.  The code never does
arithmetic on command/state doubles, it only copies and classifies them,
so this abstraction is exact for the embedded functions. -/
inductive Dbl where
  | finite (q : ℚ)
  | nan
  | posInf
  | negInf
deriving DecidableEq

/-- `std::isfinite`: true exactly on finite values. -/
def Dbl.isFinite : Dbl → Bool
  | .finite _ => true
  | .nan => false
  | .posInf => false
  | .negInf => false

/-- The double `0.0`. -/
def Dbl.zero : Dbl := .finite 0

/-- `kNumberOfJoints` from franka_hardware_interface.hpp: the arm has 7
joints. -/
def kNumberOfJoints : Nat := 7

/-- The fields of `franka::RobotState` that this code reads: joint
positions `q`, joint velocities `dq` and measured joint torques `tau_J`
(the further manufacturer fields are never inspected, only copied along,
so they are omitted from the embedding). -/
structure RobotState7 where
  q : Fin 7 → Dbl
  dq : Fin 7 → Dbl
  tau_J : Fin 7 → Dbl

/-- `franka::RobotState` is zero-initialized (all libfranka members carry
`{}` initializers), so the snapshot holds zeros before the first loop
iteration publishes. -/
def RobotState7.zero : RobotState7 :=
  { q := fun _ => Dbl.zero, dq := fun _ => Dbl.zero, tau_J := fun _ => Dbl.zero }

/-- Which loop the single control thread is currently running.  This is a
ghost field of the embedding (the C++ state records it only implicitly,
through which `initialize*` member started the live thread); it is needed
to state mode-dependent properties. -/
inductive LoopMode where
  | stopped
  | continuousReading
  | torqueControl
  | velocityControl
deriving DecidableEq

/-- State of `franka_hardware::Robot` (robot.cpp / robot.hpp): the two
pending command slots `tau_command_` and `vel_command_` (guarded by
`write_mutex_`), the published snapshot `current_state_` (guarded by
`read_mutex_`), the sticky `use_velocity_control_` flag, the cooperative
`finish_` flag and the `stopped_` flag.  `threadRunning` models whether
the `control_thread_` object holds a live (not yet joined) thread, and
`mode` is the ghost loop mode. -/
structure Robot where
  tau_command_ : Fin 7 → Dbl
  vel_command_ : Fin 7 → Dbl
  current_state_ : RobotState7
  use_velocity_control_ : Bool
  finish_ : Bool
  stopped_ : Bool
  threadRunning : Bool
  mode : LoopMode

/-- `Robot::Robot` (robot.cpp lines 26-37): fills both command slots with
zeros and connects.  The connection handle and logger are outside the
embedded state.  The remaining members are set by their in-class
initializers in robot.hpp, which is not part of the sources given here;
modelled from the spec: no loop is running after construction (`IsStopped`
reflects loop-running state), the finish flag is clear, and velocity mode
has not been used. -/
def Robot.construct : Robot :=
  { tau_command_ := fun _ => Dbl.zero
    vel_command_ := fun _ => Dbl.zero
    current_state_ := RobotState7.zero
    use_velocity_control_ := false
    finish_ := false
    stopped_ := true
    threadRunning := false
    mode := LoopMode.stopped }

/-- `Robot::write` (robot.cpp lines 39-47): under `write_mutex_`, store
the whole 7-element command into `vel_command_` if `use_velocity_control_`
is set and into `tau_command_` otherwise. -/
def Robot.write (r : Robot) (command : Fin 7 → Dbl) : Robot :=
  if r.use_velocity_control_ then { r with vel_command_ := command }
  else { r with tau_command_ := command }

/-- `Robot::read` (robot.cpp lines 49-52): return a copy of
`current_state_` under `read_mutex_`. -/
def Robot.read (r : Robot) : RobotState7 :=
  r.current_state_

/-- `Robot::isStopped` (robot.cpp lines 125-127). -/
def Robot.isStopped (r : Robot) : Bool :=
  r.stopped_

/-- `Robot::stopRobot` (robot.cpp lines 54-61): if not already stopped,
set `finish_`, join the loop thread (modelled as `threadRunning := false`;
`join` returns only once the thread has exited), clear `finish_` and mark
the bridge stopped; otherwise do nothing. -/
def Robot.stopRobot (r : Robot) : Robot :=
  if !r.stopped_ then
    let r1 := { r with finish_ := true }
    let r2 := { r1 with threadRunning := false, mode := LoopMode.stopped }
    let r3 := { r2 with finish_ := false }
    { r3 with stopped_ := true }
  else r

/-- `Robot::initializeTorqueControl` (robot.cpp lines 63-81):
`assert(isStopped())`, clear `stopped_` and spawn the torque-control loop
thread.  The assert is tracked separately by `Robot.stepPre`. -/
def Robot.initializeTorqueControl (r : Robot) : Robot :=
  { r with stopped_ := false, threadRunning := true, mode := LoopMode.torqueControl }

/-- `Robot::initializeVelocityControl` (robot.cpp lines 83-104):
`assert(isStopped())`, clear `stopped_`, set `use_velocity_control_`
(never cleared anywhere in the code), configure joint impedance on the
arm (external side effect) and spawn the velocity-control loop thread. -/
def Robot.initializeVelocityControl (r : Robot) : Robot :=
  { r with stopped_ := false, use_velocity_control_ := true,
           threadRunning := true, mode := LoopMode.velocityControl }

/-- `Robot::initializeContinuousReading` (robot.cpp lines 106-119):
`assert(isStopped())`, clear `stopped_` and spawn the read-only loop
thread. -/
def Robot.initializeContinuousReading (r : Robot) : Robot :=
  { r with stopped_ := false, threadRunning := true, mode := LoopMode.continuousReading }

/-- The public operations of the bridge that mutate its state, for
reasoning about call sequences. -/
inductive RobotOp where
  | write (command : Fin 7 → Dbl)
  | stop
  | startTorque
  | startVelocity
  | startReading

/-- One bridge operation. -/
def Robot.step (r : Robot) : RobotOp → Robot
  | .write c => r.write c
  | .stop => r.stopRobot
  | .startTorque => r.initializeTorqueControl
  | .startVelocity => r.initializeVelocityControl
  | .startReading => r.initializeContinuousReading

/-- The `assert(isStopped())` precondition of the three `initialize*`
members; `write` and `stopRobot` are unconditional. -/
def Robot.stepPre (r : Robot) : RobotOp → Bool
  | .write _ => true
  | .stop => true
  | .startTorque => r.isStopped
  | .startVelocity => r.isStopped
  | .startReading => r.isStopped

/-- Run a sequence of bridge operations. -/
def Robot.run (r : Robot) (ops : List RobotOp) : Robot :=
  ops.foldl Robot.step r

/-- A call sequence is valid when every `initialize*` call happens on a
stopped bridge (every assert holds). -/
def Robot.validRun (r : Robot) : List RobotOp → Bool
  | [] => true
  | op :: ops => r.stepPre op && (r.step op).validRun ops

/-- `op` is the `startVelocity` operation. -/
def RobotOp.isStartVelocity : RobotOp → Bool
  | .startVelocity => true
  | _ => false

/-- `hardware_interface::return_type`. -/
inductive ReturnType where
  | OK
  | ERROR
deriving DecidableEq

/-- `rclcpp_lifecycle` CallbackReturn. -/
inductive CallbackReturn where
  | SUCCESS
  | ERROR
deriving DecidableEq

/-- State of `franka_hardware::FrankaHardwareInterface`
(franka_hardware_interface.cpp / .hpp): the exposed per-joint slot arrays
and the two mode-switch flags.  The bridge it drives (`robot_`) is passed
explicitly to the embedded member functions. -/
structure FrankaHardwareInterface where
  hw_commands_ : Fin 7 → Dbl
  hw_positions_ : Fin 7 → Dbl
  hw_velocities_ : Fin 7 → Dbl
  hw_efforts_ : Fin 7 → Dbl
  velocity_interface_claimed_ : Bool
  velocity_interface_running_ : Bool

/-- `FrankaHardwareInterface::read` (lines 203-209): copy the bridge
snapshot's `q`, `dq`, `tau_J` into the exposed slots; always returns OK. -/
def FrankaHardwareInterface.read (h : FrankaHardwareInterface) (r : Robot) :
    ReturnType × FrankaHardwareInterface :=
  let kState := r.read
  (ReturnType.OK,
   { h with hw_positions_ := kState.q
            hw_velocities_ := kState.dq
            hw_efforts_ := kState.tau_J })

/-- `FrankaHardwareInterface::write` (lines 211-219): if
`std::any_of(hw_commands_.begin(), hw_commands_.end(), not isfinite)`,
return ERROR without touching the bridge; otherwise forward the whole
command array via `Robot::write` and return OK. -/
def FrankaHardwareInterface.write (h : FrankaHardwareInterface) (r : Robot) :
    ReturnType × Robot :=
  if (List.finRange 7).any (fun i => !(h.hw_commands_ i).isFinite) then
    (ReturnType.ERROR, r)
  else
    (ReturnType.OK, r.write h.hw_commands_)

/-- `FrankaHardwareInterface::on_activate` (lines 186-193): start
continuous reading, fill `hw_commands_` with zeros, perform one read
cycle, return SUCCESS. -/
def FrankaHardwareInterface.on_activate (h : FrankaHardwareInterface) (r : Robot) :
    CallbackReturn × FrankaHardwareInterface × Robot :=
  let r1 := r.initializeContinuousReading
  let h1 := { h with hw_commands_ := fun _ => Dbl.zero }
  let h2 := (h1.read r1).2
  (CallbackReturn.SUCCESS, h2, r1)

/-- `FrankaHardwareInterface::on_deactivate` (lines 195-201): stop the
bridge, return SUCCESS. -/
def FrankaHardwareInterface.on_deactivate (h : FrankaHardwareInterface) (r : Robot) :
    CallbackReturn × FrankaHardwareInterface × Robot :=
  (CallbackReturn.SUCCESS, h, r.stopRobot)

/-- One declared interface of a joint (`hardware_interface::InterfaceInfo`);
only its name is inspected by this code. -/
structure InterfaceInfo where
  name : String
deriving DecidableEq

instance : Inhabited InterfaceInfo := ⟨⟨""⟩⟩

/-- One declared joint (`hardware_interface::ComponentInfo`). -/
structure ComponentInfo where
  name : String
  command_interfaces : List InterfaceInfo
  state_interfaces : List InterfaceInfo
deriving DecidableEq

/-- The slice of `hardware_interface::HardwareInfo` this code reads: the
joint list and the optional `robot_ip` hardware parameter
(`hardware_parameters.at` throwing `std::out_of_range` is the `none`
case). -/
structure HardwareInfo where
  joints : List ComponentInfo
  robot_ip : Option String
deriving DecidableEq

/-- The per-joint checks of `on_init`'s loop (lines 231-263) that END the
function with `CallbackReturn::ERROR`: wrong command-interface count,
wrong command-interface name, wrong state-interface count.  The three
state-interface NAME checks (lines 248-262) only log `RCLCPP_FATAL` and
fall through without returning, so they do not appear here. -/
def jointValidationError (joint : ComponentInfo) : Bool :=
  if joint.command_interfaces.length ≠ 1 then true
  else if joint.command_interfaces.headI.name ≠ "velocity" then true
  else if joint.state_interfaces.length ≠ 3 then true
  else false

/-- The property the state-interface name checks of `on_init` test for
(lines 248-262): the three state interfaces are named position, velocity,
effort in that fixed order. -/
def jointStateNamesOk (joint : ComponentInfo) : Bool :=
  match joint.state_interfaces with
  | [a, b, c] => a.name = "position" && b.name = "velocity" && c.name = "effort"
  | _ => false

/-- How far `on_init` gets: a validation `return ERROR` before the
`robot_ip` parameter is read, a missing-parameter `return ERROR`, or
reaching `std::make_unique<Robot>(robot_ip, ...)` — the point where a
connection to the arm is attempted (whose success or `franka::Exception`
then decides SUCCESS vs ERROR). -/
inductive InitOutcome where
  | validationError
  | missingParamError
  | connectAttempt (robot_ip : String)
deriving DecidableEq

/-- `FrankaHardwareInterface::on_init` (lines 221-281), assuming the base
class `SystemInterface::on_init` succeeds: check the joint count against
`kNumberOfJoints`, run the per-joint checks in declaration order, then
read the `robot_ip` parameter and attempt the connection. -/
def FrankaHardwareInterface.on_init (info : HardwareInfo) : InitOutcome :=
  if info.joints.length ≠ kNumberOfJoints then InitOutcome.validationError
  else if info.joints.any jointValidationError then InitOutcome.validationError
  else
    match info.robot_ip with
    | none => InitOutcome.missingParamError
    | some ip => InitOutcome.connectAttempt ip

/-- `pattern.isPrefixOf s || ...` over every suffix of `s`:
`std::string::find(pattern) != npos`, i.e. `pattern` occurs as a
contiguous substring of `s`. -/
def containsSub (pattern : List Char) : List Char → Bool
  | [] => pattern.isEmpty
  | c :: rest => pattern.isPrefixOf (c :: rest) || containsSub pattern rest

/-- The `is_velocity_interface` lambda of `prepare_command_mode_switch`
(lines 305-307): the interface name contains `"velocity"`
(`HW_IF_VELOCITY`) as a substring. -/
def isVelocityInterface (interface_name : String) : Bool :=
  containsSub "velocity".toList interface_name.toList

/-- Result of `prepare_command_mode_switch`: normal return with the new
value of `velocity_interface_claimed_`, or a thrown
`std::invalid_argument` (the member still holds the recorded value at the
throw point, since the stop-list branch may assign before the start-list
branch throws). -/
inductive PrepareOutcome where
  | ok (claimed : Bool)
  | invalidArgument (claimed : Bool)
deriving DecidableEq

/-- The start-interface half of `prepare_command_mode_switch`
(lines 321-331): count velocity interfaces in the start list; 7 claims the
interface, 0 changes nothing, anything else throws. -/
def prepareStartPhase (claimed : Bool) (start_interfaces : List String) : PrepareOutcome :=
  let num_start_velocity_interfaces := start_interfaces.countP (fun s => isVelocityInterface s)
  if num_start_velocity_interfaces = kNumberOfJoints then PrepareOutcome.ok true
  else if num_start_velocity_interfaces ≠ 0 then PrepareOutcome.invalidArgument claimed
  else PrepareOutcome.ok claimed

/-- `FrankaHardwareInterface::prepare_command_mode_switch`
(lines 302-333): first count velocity interfaces in the stop list (7
releases the claim, 0 changes nothing, anything else throws
`std::invalid_argument`), then handle the start list. -/
def FrankaHardwareInterface.prepare_command_mode_switch (claimed : Bool)
    (start_interfaces stop_interfaces : List String) : PrepareOutcome :=
  let num_stop_velocity_interfaces := stop_interfaces.countP (fun s => isVelocityInterface s)
  if num_stop_velocity_interfaces = kNumberOfJoints then
    prepareStartPhase false start_interfaces
  else if num_stop_velocity_interfaces ≠ 0 then
    PrepareOutcome.invalidArgument claimed
  else
    prepareStartPhase claimed start_interfaces

/-- The bridge member functions `perform_command_mode_switch` can call,
in call order. -/
inductive BridgeCall where
  | stopRobotCall
  | initializeVelocityControlCall
  | initializeContinuousReadingCall
deriving DecidableEq

/-- The sequence of bridge calls `perform_command_mode_switch` makes,
branch by branch (lines 290-298). -/
def performSwitchCalls (h : FrankaHardwareInterface) : List BridgeCall :=
  if !h.velocity_interface_running_ && h.velocity_interface_claimed_ then
    [BridgeCall.stopRobotCall, BridgeCall.initializeVelocityControlCall]
  else if h.velocity_interface_running_ && !h.velocity_interface_claimed_ then
    [BridgeCall.stopRobotCall, BridgeCall.initializeContinuousReadingCall]
  else []

/-- `call` starts a loop (is not `stopRobot`). -/
def BridgeCall.isStartCall : BridgeCall → Bool
  | .stopRobotCall => false
  | .initializeVelocityControlCall => true
  | .initializeContinuousReadingCall => true

/-- Every loop-starting call in the list is preceded by an earlier
`stopRobot` call (`seenStop` records whether one has occurred yet). -/
def stopsBeforeStarts (seenStop : Bool) : List BridgeCall → Bool
  | [] => true
  | c :: rest =>
    (seenStop || !c.isStartCall) &&
      stopsBeforeStarts (seenStop || c == BridgeCall.stopRobotCall) rest

/-- `FrankaHardwareInterface::perform_command_mode_switch`
(lines 287-300): both interface-list parameters are unused (commented out
in the signature).  If velocity is claimed but not running, stop the
bridge, start velocity control and record running; if running but no
longer claimed, stop, revert to continuous reading and clear running;
otherwise leave everything alone.  Always returns OK. -/
def FrankaHardwareInterface.perform_command_mode_switch
    (start_interfaces stop_interfaces : List String)
    (h : FrankaHardwareInterface) (r : Robot) :
    ReturnType × FrankaHardwareInterface × Robot :=
  if !h.velocity_interface_running_ && h.velocity_interface_claimed_ then
    (ReturnType.OK, { h with velocity_interface_running_ := true },
      (r.stopRobot).initializeVelocityControl)
  else if h.velocity_interface_running_ && !h.velocity_interface_claimed_ then
    (ReturnType.OK, { h with velocity_interface_running_ := false },
      (r.stopRobot).initializeContinuousReading)
  else
    (ReturnType.OK, h, r)

/-- The two mutexes of `franka_hardware::Robot`: `read_mutex_` (guarding
`current_state_`) and `write_mutex_` (guarding the pending command). -/
inductive LockId where
  | readLock
  | writeLock
deriving DecidableEq, BEq

/-- The shared data touched inside the loop callbacks.  `finishFlag` is
the `std::atomic_bool finish_`, which is not guarded by either mutex. -/
inductive Datum where
  | currentState
  | tauCommand
  | velCommand
  | finishFlag
deriving DecidableEq, BEq

/-- One step of a loop-callback body: taking or releasing a
`std::lock_guard`, or a whole-struct copy in or out of a shared datum. -/
inductive Event where
  | acquire (l : LockId)
  | release (l : LockId)
  | writeDatum (d : Datum)
  | readDatum (d : Datum)
deriving DecidableEq, BEq

/-- Which locks are currently held. -/
structure LockState where
  readHeld : Bool
  writeHeld : Bool
deriving DecidableEq

/-- No lock held at callback entry. -/
def LockState.init : LockState := ⟨false, false⟩

/-- Effect of an event on the held-lock set. -/
def LockState.applyEvent (s : LockState) : Event → LockState
  | .acquire .readLock => { s with readHeld := true }
  | .release .readLock => { s with readHeld := false }
  | .acquire .writeLock => { s with writeHeld := true }
  | .release .writeLock => { s with writeHeld := false }
  | .writeDatum _ => s
  | .readDatum _ => s

/-- The body of the torque-control callback (robot.cpp lines 68-77),
statement by statement: `{ lock_guard lock(read_mutex_); current_state_ =
state; }` then `lock_guard lock(write_mutex_);`, `franka::Torques
out(tau_command_);` (whole-array copy out), `out.motion_finished =
finish_;`, and the `write_mutex_` guard released at the return. -/
def torqueCallbackEvents : List Event :=
  [Event.acquire LockId.readLock,
   Event.writeDatum Datum.currentState,
   Event.release LockId.readLock,
   Event.acquire LockId.writeLock,
   Event.readDatum Datum.tauCommand,
   Event.readDatum Datum.finishFlag,
   Event.release LockId.writeLock]

/-- The body of the velocity-control callback (robot.cpp lines 90-98):
identical lock structure, reading `vel_command_` instead. -/
def velocityCallbackEvents : List Event :=
  [Event.acquire LockId.readLock,
   Event.writeDatum Datum.currentState,
   Event.release LockId.readLock,
   Event.acquire LockId.writeLock,
   Event.readDatum Datum.velCommand,
   Event.readDatum Datum.finishFlag,
   Event.release LockId.writeLock]

/-- At no point in the trace (starting from lock state `s`) are both
mutexes held at once. -/
def neverBothHeld (s : LockState) : List Event → Bool
  | [] => !(s.readHeld && s.writeHeld)
  | e :: rest => !(s.readHeld && s.writeHeld) && neverBothHeld (s.applyEvent e) rest

/-- `d` is one of the mutex-guarded shared data (the atomic `finish_`
flag is synchronized on its own, not by a mutex). -/
def Datum.isMutexGuarded : Datum → Bool
  | .currentState => true
  | .tauCommand => true
  | .velCommand => true
  | .finishFlag => false

/-- Every access to `current_state_` happens with `read_mutex_` held and
every access to a command slot happens with `write_mutex_` held. -/
def accessesGuarded (s : LockState) : List Event → Bool
  | [] => true
  | e :: rest =>
    (match e with
     | .writeDatum .currentState | .readDatum .currentState => s.readHeld
     | .writeDatum .tauCommand | .readDatum .tauCommand => s.writeHeld
     | .writeDatum .velCommand | .readDatum .velCommand => s.writeHeld
     | _ => true) && accessesGuarded (s.applyEvent e) rest

/-- The mutex-guarded data accessed while `read_mutex_` is held. -/
def dataUnderReadLock (s : LockState) : List Event → List Datum
  | [] => []
  | e :: rest =>
    (match e with
     | .writeDatum d | .readDatum d =>
       if s.readHeld && d.isMutexGuarded then [d] else []
     | _ => []) ++ dataUnderReadLock (s.applyEvent e) rest

/-- The mutex-guarded data accessed while `write_mutex_` is held. -/
def dataUnderWriteLock (s : LockState) : List Event → List Datum
  | [] => []
  | e :: rest =>
    (match e with
     | .writeDatum d | .readDatum d =>
       if s.writeHeld && d.isMutexGuarded then [d] else []
     | _ => []) ++ dataUnderWriteLock (s.applyEvent e) rest

/-- Position of the state publication (`current_state_ = state`). -/
def publishIndex (events : List Event) : Nat :=
  events.findIdx (fun e => e == Event.writeDatum Datum.currentState)

/-- Position of the pending-command read. -/
def commandReadIndex (events : List Event) : Nat :=
  events.findIdx (fun e =>
    e == Event.readDatum Datum.tauCommand || e == Event.readDatum Datum.velCommand)

/-- Position of the release of `read_mutex_`. -/
def readReleaseIndex (events : List Event) : Nat :=
  events.findIdx (fun e => e == Event.release LockId.readLock)

/-- Position of the acquisition of `write_mutex_`. -/
def writeAcquireIndex (events : List Event) : Nat :=
  events.findIdx (fun e => e == Event.acquire LockId.writeLock)

/-!  Helper lemmas (shared). -/

/-- One step preserves the invariant "stopped implies no live thread". -/
theorem stopped_no_thread_step (r : Robot) (op : RobotOp)
    (h : r.stopped_ = true → r.threadRunning = false) :
    (r.step op).stopped_ = true → (r.step op).threadRunning = false := by
  cases op with
  | write c =>
    simp only [Robot.step, Robot.write]
    split <;> exact fun hs => h hs
  | stop =>
    simp only [Robot.step, Robot.stopRobot]
    split
    · exact fun _ => rfl
    · exact fun hs => h hs
  | startTorque => simp [Robot.step, Robot.initializeTorqueControl]
  | startVelocity => simp [Robot.step, Robot.initializeVelocityControl]
  | startReading => simp [Robot.step, Robot.initializeContinuousReading]

/-- Along any run, a stopped bridge has no live loop thread. -/
theorem stopped_no_thread_run (ops : List RobotOp) : ∀ r : Robot,
    (r.stopped_ = true → r.threadRunning = false) →
    ((Robot.run r ops).stopped_ = true → (Robot.run r ops).threadRunning = false) := by
  induction ops with
  | nil => exact fun r h => h
  | cons op ops ih => exact fun r h => ih (r.step op) (stopped_no_thread_step r op h)

/-- One step changes `use_velocity_control_` exactly by or-ing in whether
the step starts velocity control. -/
theorem use_velocity_flag_step (r : Robot) (op : RobotOp) :
    (r.step op).use_velocity_control_ =
      (r.use_velocity_control_ || op.isStartVelocity) := by
  cases op with
  | write c =>
    simp only [Robot.step, Robot.write]
    split <;> simp [RobotOp.isStartVelocity]
  | stop =>
    simp only [Robot.step, Robot.stopRobot]
    split <;> simp [RobotOp.isStartVelocity]
  | startTorque => simp [Robot.step, Robot.initializeTorqueControl, RobotOp.isStartVelocity]
  | startVelocity => simp [Robot.step, Robot.initializeVelocityControl, RobotOp.isStartVelocity]
  | startReading => simp [Robot.step, Robot.initializeContinuousReading, RobotOp.isStartVelocity]

/-- Over a run, `use_velocity_control_` is the initial flag or-ed with
"some operation started velocity control". -/
theorem use_velocity_flag_run (ops : List RobotOp) : ∀ r : Robot,
    (Robot.run r ops).use_velocity_control_ =
      (r.use_velocity_control_ || ops.any RobotOp.isStartVelocity) := by
  induction ops with
  | nil => intro r; simp [Robot.run]
  | cons op ops ih =>
    intro r
    show (Robot.run (r.step op) ops).use_velocity_control_ = _
    rw [ih, use_velocity_flag_step]
    simp [Bool.or_assoc]

/-- `stopRobot` always leaves the bridge stopped. -/
theorem stopRobot_isStopped (r : Robot) : (r.stopRobot).isStopped = true := by
  cases hs : r.stopped_ <;> simp [Robot.stopRobot, Robot.isStopped, hs]

/-- `stopRobot` on an already-stopped bridge is the identity. -/
theorem stopRobot_of_stopped (s : Robot) (h : s.stopped_ = true) : s.stopRobot = s := by
  simp [Robot.stopRobot, h]

/-!  C10. -/

/-- C10: after `Robot::Robot` both pending command slots hold the
all-zero 7-element vector, and the command slot read by the torque
(resp. velocity) loop callback still holds zeros once that loop is
started with no intervening `write`. -/
theorem initial_pending_commands_zero :
    Robot.construct.tau_command_ = (fun _ => Dbl.zero) ∧
    Robot.construct.vel_command_ = (fun _ => Dbl.zero) ∧
    (Robot.construct.initializeTorqueControl).tau_command_ = (fun _ => Dbl.zero) ∧
    (Robot.construct.initializeVelocityControl).vel_command_ = (fun _ => Dbl.zero) :=
  ⟨rfl, rfl, rfl, rfl⟩

/-!  C9. -/

/-- C9: `perform_command_mode_switch` never inspects its interface-list
arguments — any two argument pairs give the identical result on the same
internal state — and it always returns OK. -/
theorem perform_ignores_interface_lists (s1 s2 t1 t2 : List String)
    (h : FrankaHardwareInterface) (r : Robot) :
    FrankaHardwareInterface.perform_command_mode_switch s1 s2 h r =
      FrankaHardwareInterface.perform_command_mode_switch t1 t2 h r ∧
    (FrankaHardwareInterface.perform_command_mode_switch s1 s2 h r).1 = ReturnType.OK := by
  refine ⟨rfl, ?_⟩
  unfold FrankaHardwareInterface.perform_command_mode_switch
  split
  · rfl
  · split <;> rfl

/-!  C8. -/

/-- C8: in both the torque-control and the velocity-control loop
callback, the state publication strictly precedes the pending-command
read, `read_mutex_` is released before `write_mutex_` is acquired (the
two are never held simultaneously), every mutex-guarded access happens
under its own mutex, and under each mutex exactly one shared datum is
accessed (as a whole-struct copy, which is the granularity of the events
of the embedding). -/
theorem loop_callbacks_lock_discipline :
    publishIndex torqueCallbackEvents < commandReadIndex torqueCallbackEvents ∧
    publishIndex velocityCallbackEvents < commandReadIndex velocityCallbackEvents ∧
    readReleaseIndex torqueCallbackEvents < writeAcquireIndex torqueCallbackEvents ∧
    readReleaseIndex velocityCallbackEvents < writeAcquireIndex velocityCallbackEvents ∧
    neverBothHeld LockState.init torqueCallbackEvents = true ∧
    neverBothHeld LockState.init velocityCallbackEvents = true ∧
    accessesGuarded LockState.init torqueCallbackEvents = true ∧
    accessesGuarded LockState.init velocityCallbackEvents = true ∧
    dataUnderReadLock LockState.init torqueCallbackEvents = [Datum.currentState] ∧
    dataUnderWriteLock LockState.init torqueCallbackEvents = [Datum.tauCommand] ∧
    dataUnderReadLock LockState.init velocityCallbackEvents = [Datum.currentState] ∧
    dataUnderWriteLock LockState.init velocityCallbackEvents = [Datum.velCommand] := by
  decide

/-!  C7. -/

/-- C7: `on_activate` returns SUCCESS with the bridge in
continuous-reading mode, all 7 velocity command slots zeroed, and the
exposed state slots filled from the bridge's published snapshot by the
read cycle it performs; on a freshly constructed bridge that snapshot is
the zero-initialized one, so no slot is ever left uninitialized. -/
theorem on_activate_spec (h : FrankaHardwareInterface) (r : Robot) :
    (h.on_activate r).1 = CallbackReturn.SUCCESS ∧
    ((h.on_activate r).2.2).mode = LoopMode.continuousReading ∧
    ((h.on_activate r).2.2).stopped_ = false ∧
    ((h.on_activate r).2.1).hw_commands_ = (fun _ => Dbl.zero) ∧
    ((h.on_activate r).2.1).hw_positions_ = r.current_state_.q ∧
    ((h.on_activate r).2.1).hw_velocities_ = r.current_state_.dq ∧
    ((h.on_activate r).2.1).hw_efforts_ = r.current_state_.tau_J ∧
    ((h.on_activate Robot.construct).2.1).hw_positions_ = (fun _ => Dbl.zero) ∧
    ((h.on_activate Robot.construct).2.1).hw_velocities_ = (fun _ => Dbl.zero) ∧
    ((h.on_activate Robot.construct).2.1).hw_efforts_ = (fun _ => Dbl.zero) :=
  ⟨rfl, rfl, rfl, rfl, rfl, rfl, rfl, rfl, rfl, rfl⟩

/-!  C1. -/

/-- C1 counterexample: after the valid call sequence "start velocity
control, stop, start torque control", torque control is the currently
active loop mode, yet `Robot::write` stores the command into the velocity
slot and leaves the torque slot untouched — the slot is NOT determined by
the mode active at the time of the call. -/
theorem write_ignores_active_mode_cex :
    Robot.validRun Robot.construct
      [RobotOp.startVelocity, RobotOp.stop, RobotOp.startTorque] = true ∧
    (Robot.run Robot.construct
      [RobotOp.startVelocity, RobotOp.stop, RobotOp.startTorque]).mode
      = LoopMode.torqueControl ∧
    ((Robot.run Robot.construct
      [RobotOp.startVelocity, RobotOp.stop, RobotOp.startTorque]).write
        (fun _ => Dbl.finite 1)).vel_command_ = (fun _ => Dbl.finite 1) ∧
    ((Robot.run Robot.construct
      [RobotOp.startVelocity, RobotOp.stop, RobotOp.startTorque]).write
        (fun _ => Dbl.finite 1)).tau_command_ ≠ (fun _ => Dbl.finite 1) := by
  refine ⟨rfl, rfl, rfl, fun hEq => ?_⟩
  have h0 := congrFun hEq 0
  exact absurd h0 (by decide)

/-- C1 (amended): which slot `Robot::write` fills is decided by the
sticky `use_velocity_control_` flag, which is false after construction,
is set by `initializeVelocityControl` and is never cleared by any
operation — so the slot is determined by whether velocity control has
ever been started, not by the currently active loop mode.  When the flag
is set the whole vector replaces the velocity slot (torque slot
untouched), otherwise it replaces the torque slot (velocity slot
untouched). -/
theorem write_slot_follows_sticky_flag (ops : List RobotOp) (c : Fin 7 → Dbl) :
    ((Robot.run Robot.construct ops).use_velocity_control_
      = ops.any RobotOp.isStartVelocity) ∧
    (∀ r : Robot, r.use_velocity_control_ = true →
      (r.write c).vel_command_ = c ∧ (r.write c).tau_command_ = r.tau_command_) ∧
    (∀ r : Robot, r.use_velocity_control_ = false →
      (r.write c).tau_command_ = c ∧ (r.write c).vel_command_ = r.vel_command_) := by
  refine ⟨?_, ?_, ?_⟩
  · rw [use_velocity_flag_run]
    rfl
  · intro r hr
    constructor <;> simp [Robot.write, hr]
  · intro r hr
    constructor <;> simp [Robot.write, hr]

/-- Witness for the amended C1 statement, at a bridge that has started
velocity control. -/
theorem write_slot_follows_sticky_flag_witness :
    ((Robot.construct.initializeVelocityControl).write (fun _ => Dbl.zero)).vel_command_
      = (fun _ => Dbl.zero) :=
  ((write_slot_follows_sticky_flag [] (fun _ => Dbl.zero)).2.1
    Robot.construct.initializeVelocityControl rfl).1

/-!  C2. -/

/-- C2: the per-cycle `FrankaHardwareInterface::write` rejects the cycle
(returns ERROR) and leaves the bridge completely unchanged whenever some
command slot holds a non-finite value, and otherwise forwards the full
7-element vector to the bridge via `Robot::write` and returns OK. -/
theorem write_cycle_nonfinite_guard (h : FrankaHardwareInterface) (r : Robot) :
    ((∃ i, (h.hw_commands_ i).isFinite = false) →
      h.write r = (ReturnType.ERROR, r)) ∧
    ((∀ i, (h.hw_commands_ i).isFinite = true) →
      h.write r = (ReturnType.OK, r.write h.hw_commands_)) := by
  by_cases hb : ((List.finRange 7).any fun i => !(h.hw_commands_ i).isFinite) = true
  · constructor
    · intro _
      simp only [FrankaHardwareInterface.write, hb, if_true]
    · intro hall
      exfalso
      rw [List.any_eq_true] at hb
      obtain ⟨i, -, hi⟩ := hb
      rw [hall i] at hi
      exact absurd hi (by decide)
  · constructor
    · rintro ⟨i, hi⟩
      exact absurd (List.any_eq_true.mpr ⟨i, List.mem_finRange i, by rw [hi]; rfl⟩) hb
    · intro _
      simp [FrankaHardwareInterface.write, hb]

/-- Witness for C2, at a command array whose first slot holds NaN: the
cycle is rejected and the freshly constructed bridge is returned
unchanged. -/
theorem write_cycle_nonfinite_guard_witness :
    FrankaHardwareInterface.write
      { hw_commands_ := fun i => if i = 0 then Dbl.nan else Dbl.zero
        hw_positions_ := fun _ => Dbl.zero
        hw_velocities_ := fun _ => Dbl.zero
        hw_efforts_ := fun _ => Dbl.zero
        velocity_interface_claimed_ := false
        velocity_interface_running_ := false }
      Robot.construct = (ReturnType.ERROR, Robot.construct) :=
  (write_cycle_nonfinite_guard _ _).1 ⟨0, rfl⟩

/-!  C3. -/

/-- C3: `Robot::stopRobot` is idempotent.  On an already-stopped bridge
it is the identity; otherwise it joins the loop thread, clears the finish
flag, marks the bridge stopped and changes nothing else.  After any call
(and in particular after a second consecutive call) `isStopped` is true
and no loop thread is live, i.e. the call does not return before the
thread has exited. -/
theorem stop_robot_idempotent_spec (ops : List RobotOp) :
    let r := Robot.run Robot.construct ops
    (r.stopped_ = true → r.stopRobot = r) ∧
    (r.stopped_ = false →
      r.stopRobot.finish_ = false ∧
      r.stopRobot.stopped_ = true ∧
      r.stopRobot.threadRunning = false ∧
      r.stopRobot.mode = LoopMode.stopped ∧
      r.stopRobot.tau_command_ = r.tau_command_ ∧
      r.stopRobot.vel_command_ = r.vel_command_ ∧
      r.stopRobot.current_state_ = r.current_state_ ∧
      r.stopRobot.use_velocity_control_ = r.use_velocity_control_) ∧
    r.stopRobot.isStopped = true ∧
    r.stopRobot.threadRunning = false ∧
    r.stopRobot.stopRobot = r.stopRobot := by
  intro r
  have hInv : r.stopped_ = true → r.threadRunning = false :=
    stopped_no_thread_run ops Robot.construct (fun _ => rfl)
  refine ⟨?_, ?_, ?_, ?_, ?_⟩
  · intro hs
    simp [Robot.stopRobot, hs]
  · intro hs
    simp [Robot.stopRobot, hs]
  · exact stopRobot_isStopped r
  · cases hs : r.stopped_ with
    | true => simp [Robot.stopRobot, hs, hInv hs]
    | false => simp [Robot.stopRobot, hs]
  · exact stopRobot_of_stopped r.stopRobot (stopRobot_isStopped r)

/-- Witness for C3, on the freshly constructed (already stopped) bridge:
`stopRobot` is a no-op. -/
theorem stop_robot_idempotent_spec_witness :
    Robot.construct.stopRobot = Robot.construct :=
  (stop_robot_idempotent_spec []).1 rfl

/-!  C4. -/

/-- A joint whose three state interfaces are misordered (velocity,
position, effort instead of position, velocity, effort) but whose
interface counts are right. -/
def misorderedJoint : ComponentInfo :=
  { name := "joint1"
    command_interfaces := [{ name := "velocity" }]
    state_interfaces := [{ name := "velocity" }, { name := "position" }, { name := "effort" }] }

/-- A configuration of 7 such joints, with the `robot_ip` parameter set. -/
def misorderedInfo : HardwareInfo :=
  { joints := List.replicate 7 misorderedJoint
    robot_ip := some "172.16.0.2" }

/-- C4 (code bug): `on_init`'s state-interface NAME checks (robot.cpp
lines 248-262) log `RCLCPP_FATAL` but are missing the
`return CallbackReturn::ERROR;` that all sibling checks have, so a
configuration whose state interfaces are not named position, velocity,
effort in that order sails through validation: the parameter is read and
a connection to the arm is attempted, contradicting the claim that such a
configuration produces an error with no connection attempt. -/
theorem on_init_state_name_check_missing_return :
    jointStateNamesOk misorderedJoint = false ∧
    FrankaHardwareInterface.on_init misorderedInfo
      = InitOutcome.connectAttempt "172.16.0.2" ∧
    FrankaHardwareInterface.on_init
      { joints := List.replicate 6 misorderedJoint, robot_ip := some "172.16.0.2" }
      = InitOutcome.validationError := by
  refine ⟨rfl, ?_, rfl⟩
  decide

/-!  C5. -/

/-- C5: `prepare_command_mode_switch` counts the velocity interfaces in
the stop list and then in the start list: a count of 7 in the start list
claims the velocity interface, a count of 7 in the stop list releases it,
a count of 0 leaves the flag unchanged, and any other count in either
list throws `std::invalid_argument`; in particular a start list with
velocity entries for exactly 3 joints throws. -/
theorem prepare_mode_switch_spec (claimed : Bool) (start stop : List String) :
    (stop.countP (fun s => isVelocityInterface s) = 0 →
      start.countP (fun s => isVelocityInterface s) = 7 →
      FrankaHardwareInterface.prepare_command_mode_switch claimed start stop
        = PrepareOutcome.ok true) ∧
    (stop.countP (fun s => isVelocityInterface s) = 7 →
      start.countP (fun s => isVelocityInterface s) = 7 →
      FrankaHardwareInterface.prepare_command_mode_switch claimed start stop
        = PrepareOutcome.ok true) ∧
    (stop.countP (fun s => isVelocityInterface s) = 7 →
      start.countP (fun s => isVelocityInterface s) = 0 →
      FrankaHardwareInterface.prepare_command_mode_switch claimed start stop
        = PrepareOutcome.ok false) ∧
    (stop.countP (fun s => isVelocityInterface s) = 0 →
      start.countP (fun s => isVelocityInterface s) = 0 →
      FrankaHardwareInterface.prepare_command_mode_switch claimed start stop
        = PrepareOutcome.ok claimed) ∧
    (stop.countP (fun s => isVelocityInterface s) ≠ 0 →
      stop.countP (fun s => isVelocityInterface s) ≠ 7 →
      FrankaHardwareInterface.prepare_command_mode_switch claimed start stop
        = PrepareOutcome.invalidArgument claimed) ∧
    (start.countP (fun s => isVelocityInterface s) ≠ 0 →
      start.countP (fun s => isVelocityInterface s) ≠ 7 →
      ∃ c, FrankaHardwareInterface.prepare_command_mode_switch claimed start stop
        = PrepareOutcome.invalidArgument c) ∧
    FrankaHardwareInterface.prepare_command_mode_switch claimed
      ["fr3_joint1/velocity", "fr3_joint2/velocity", "fr3_joint3/velocity"] []
      = PrepareOutcome.invalidArgument claimed := by
  refine ⟨?_, ?_, ?_, ?_, ?_, ?_, ?_⟩
  · intro h1 h2
    simp [FrankaHardwareInterface.prepare_command_mode_switch, prepareStartPhase,
          kNumberOfJoints, h1, h2]
  · intro h1 h2
    simp [FrankaHardwareInterface.prepare_command_mode_switch, prepareStartPhase,
          kNumberOfJoints, h1, h2]
  · intro h1 h2
    simp [FrankaHardwareInterface.prepare_command_mode_switch, prepareStartPhase,
          kNumberOfJoints, h1, h2]
  · intro h1 h2
    simp [FrankaHardwareInterface.prepare_command_mode_switch, prepareStartPhase,
          kNumberOfJoints, h1, h2]
  · intro h1 h2
    simp [FrankaHardwareInterface.prepare_command_mode_switch, prepareStartPhase,
          kNumberOfJoints, h1, h2]
  · intro h1 h2
    rcases eq_or_ne (stop.countP (fun s => isVelocityInterface s)) 7 with h7 | h7
    · exact ⟨false, by simp [FrankaHardwareInterface.prepare_command_mode_switch,
        prepareStartPhase, kNumberOfJoints, h1, h2, h7]⟩
    · rcases eq_or_ne (stop.countP (fun s => isVelocityInterface s)) 0 with h0 | h0
      · exact ⟨claimed, by simp [FrankaHardwareInterface.prepare_command_mode_switch,
          prepareStartPhase, kNumberOfJoints, h1, h2, h7, h0]⟩
      · exact ⟨claimed, by simp [FrankaHardwareInterface.prepare_command_mode_switch,
          prepareStartPhase, kNumberOfJoints, h7, h0]⟩
  · have h3 : (["fr3_joint1/velocity", "fr3_joint2/velocity", "fr3_joint3/velocity"]
        : List String).countP (fun s => isVelocityInterface s) = 3 := by decide
    simp [FrankaHardwareInterface.prepare_command_mode_switch, prepareStartPhase,
          kNumberOfJoints, h3]

/-- Witness for C5: a start list claiming all 7 joints (stop list empty)
sets the claimed flag. -/
theorem prepare_mode_switch_spec_witness :
    FrankaHardwareInterface.prepare_command_mode_switch false
      ["fr3_joint1/velocity", "fr3_joint2/velocity", "fr3_joint3/velocity",
       "fr3_joint4/velocity", "fr3_joint5/velocity", "fr3_joint6/velocity",
       "fr3_joint7/velocity"] []
      = PrepareOutcome.ok true :=
  (prepare_mode_switch_spec false
    ["fr3_joint1/velocity", "fr3_joint2/velocity", "fr3_joint3/velocity",
     "fr3_joint4/velocity", "fr3_joint5/velocity", "fr3_joint6/velocity",
     "fr3_joint7/velocity"] []).1 (by decide) (by decide)

/-!  C6. -/

/-- C6: `perform_command_mode_switch` compares `velocity_interface_running_`
against `velocity_interface_claimed_`: newly claimed → stop the loop,
start velocity control, record running; newly released → stop the loop,
restart continuous reading, clear running; equal flags → change nothing.
Every loop-starting bridge call is preceded by a `stopRobot` call, and
the bridge passed to each `initialize*` satisfies its `isStopped`
assertion. -/
theorem perform_mode_switch_spec (start stop : List String)
    (h : FrankaHardwareInterface) (r : Robot) :
    (h.velocity_interface_running_ = false → h.velocity_interface_claimed_ = true →
      FrankaHardwareInterface.perform_command_mode_switch start stop h r =
        (ReturnType.OK, { h with velocity_interface_running_ := true },
          (r.stopRobot).initializeVelocityControl) ∧
      ((r.stopRobot).initializeVelocityControl).mode = LoopMode.velocityControl ∧
      (r.stopRobot).isStopped = true ∧
      performSwitchCalls h
        = [BridgeCall.stopRobotCall, BridgeCall.initializeVelocityControlCall]) ∧
    (h.velocity_interface_running_ = true → h.velocity_interface_claimed_ = false →
      FrankaHardwareInterface.perform_command_mode_switch start stop h r =
        (ReturnType.OK, { h with velocity_interface_running_ := false },
          (r.stopRobot).initializeContinuousReading) ∧
      ((r.stopRobot).initializeContinuousReading).mode = LoopMode.continuousReading ∧
      (r.stopRobot).isStopped = true ∧
      performSwitchCalls h
        = [BridgeCall.stopRobotCall, BridgeCall.initializeContinuousReadingCall]) ∧
    (h.velocity_interface_running_ = h.velocity_interface_claimed_ →
      FrankaHardwareInterface.perform_command_mode_switch start stop h r
        = (ReturnType.OK, h, r) ∧
      performSwitchCalls h = []) ∧
    stopsBeforeStarts false (performSwitchCalls h) = true := by
  refine ⟨?_, ?_, ?_, ?_⟩
  · intro hr hc
    refine ⟨?_, rfl, stopRobot_isStopped r, ?_⟩
    · simp [FrankaHardwareInterface.perform_command_mode_switch, hr, hc]
    · simp [performSwitchCalls, hr, hc]
  · intro hr hc
    refine ⟨?_, rfl, stopRobot_isStopped r, ?_⟩
    · simp [FrankaHardwareInterface.perform_command_mode_switch, hr, hc]
    · simp [performSwitchCalls, hr, hc]
  · intro heq
    cases hr : h.velocity_interface_running_ with
    | true =>
      rw [hr] at heq
      constructor
      · simp [FrankaHardwareInterface.perform_command_mode_switch, hr, heq.symm]
      · simp [performSwitchCalls, hr, heq.symm]
    | false =>
      rw [hr] at heq
      constructor
      · simp [FrankaHardwareInterface.perform_command_mode_switch, hr, heq.symm]
      · simp [performSwitchCalls, hr, heq.symm]
  · cases hr : h.velocity_interface_running_ <;>
      cases hc : h.velocity_interface_claimed_ <;>
        simp [performSwitchCalls, hr, hc, stopsBeforeStarts, BridgeCall.isStartCall]

/-- Witness for C6: with velocity newly claimed on a fresh bridge, the
switch stops the bridge and starts velocity control. -/
theorem perform_mode_switch_spec_witness :
    FrankaHardwareInterface.perform_command_mode_switch [] []
      { hw_commands_ := fun _ => Dbl.zero
        hw_positions_ := fun _ => Dbl.zero
        hw_velocities_ := fun _ => Dbl.zero
        hw_efforts_ := fun _ => Dbl.zero
        velocity_interface_claimed_ := true
        velocity_interface_running_ := false }
      Robot.construct =
      (ReturnType.OK,
       { hw_commands_ := fun _ => Dbl.zero
         hw_positions_ := fun _ => Dbl.zero
         hw_velocities_ := fun _ => Dbl.zero
         hw_efforts_ := fun _ => Dbl.zero
         velocity_interface_claimed_ := true
         velocity_interface_running_ := true },
       (Robot.construct.stopRobot).initializeVelocityControl) :=
  ((perform_mode_switch_spec [] [] _ Robot.construct).1 rfl rfl).1

end FrankaRos2
